import Mathlib

/-!
# Verification of the FYP Monte Carlo delivery-time simulation

Shallow embedding of `src/FYP/src/simulation.py` (Phase 1 data, the Phase 2
Monte Carlo engine, and the comparison-table derivation) over ℚ.

Modelling conventions:

* Machine floats are modelled by ℚ.  `np.std` returns a square root, which ℚ
  cannot represent, so summary rows carry the *square* of the standard
  deviation (`Std_Dev_sq`); the square root is injective on nonnegatives, so
  nothing about the divide-by-N-vs-(N−1) convention is lost.
* The process-wide numpy generator seeded once with `np.random.seed(42)` is
  modelled by a `Gen` record holding two abstract variate streams — `u` for
  unit-interval uniform variates and `z` for standard-normal variates — plus
  cursors recording how far each stream has been consumed.  A fixed seed
  determines the streams, so "same seed" is "same `Gen`".  Each sampling call
  consumes the next `N` entries of its stream, exactly mirroring how each
  `np.random.uniform`/`np.random.normal` call advances the single shared
  legacy generator, so draw order is captured faithfully.
* `np.random.uniform(lo, hi, N)` returns `lo + (hi-lo)*u` for unit variates
  `u` and performs no parameter validation (with `lo > hi` the draws simply
  land in `[hi, lo]`).  `np.random.normal(loc, scale, N)` raises
  `ValueError` when `scale < 0` and otherwise returns `loc + scale*z` for
  standard-normal variates `z`.  `np.percentile(a, q)` (default linear
  interpolation) sorts ascending and interpolates at fractional 0-based
  index `(len-1)*q/100`.  `np.mean` is `sum/len`; `np.std` (default
  `ddof=0`) is `sqrt(sum((x-mean)^2)/len)`.
* `pandas.DataFrame.pivot` indexes by the lexicographically sorted distinct
  stations and fills a missing (Station, Mode) cell with NaN instead of
  raising; NaN then propagates through the derived columns, and a float
  division by zero yields a non-finite value without raising.  Non-finite
  cells are modelled by `none : Option ℚ`.
-/

namespace FYP

/-- The shared pseudo-random generator: abstract streams of unit-uniform
variates (`u`) and standard-normal variates (`z`), with cursors marking how
many of each have been consumed.  Models the single numpy legacy generator
after `np.random.seed(42)`. -/
structure Gen where
  u : ℕ → ℚ
  z : ℕ → ℚ
  cu : ℕ
  cz : ℕ

/-- One uniform draw: `lo + (hi - lo) * x` for a unit variate `x` — numpy's
transformation in `np.random.uniform`, applied with no parameter check. -/
def uniformSample (lo hi x : ℚ) : ℚ := lo + (hi - lo) * x

/-- One normal draw: `mean + sd * zv` for a standard-normal variate `zv`. -/
def normalSample (mean sd zv : ℚ) : ℚ := mean + sd * zv

/-- `np.random.uniform(lo, hi, N)`: `N` draws consuming the next `N` unit
variates of the shared generator. -/
def drawU (lo hi : ℚ) (N : ℕ) (g : Gen) : List ℚ × Gen :=
  ((List.range N).map (fun i => uniformSample lo hi (g.u (g.cu + i))),
   { g with cu := g.cu + N })

/-- `np.random.normal(mean, sd, N)` (the non-error branch): `N` draws
consuming the next `N` standard-normal variates of the shared generator. -/
def drawZ (mean sd : ℚ) (N : ℕ) (g : Gen) : List ℚ × Gen :=
  ((List.range N).map (fun i => normalSample mean sd (g.z (g.cz + i))),
   { g with cz := g.cz + N })

/-- A distribution spec as used by the script's sampling calls. -/
inductive DistKind where
  | uniform (lo hi : ℚ)
  | normal (mean sd : ℚ)
deriving DecidableEq

/-- The only parameter error numpy's samplers raise on the script's call
shapes: `np.random.normal` rejects a negative scale with `ValueError`. -/
inductive SampleError where
  | invalidScale
deriving DecidableEq

/-- The sampling primitive as the code actually behaves: uniform draws are
produced unconditionally (numpy never validates `lo ≤ hi`), normal draws
fail iff `sd < 0`. -/
def sampleDist (d : DistKind) (N : ℕ) (g : Gen) :
    Except SampleError (List ℚ × Gen) :=
  match d with
  | .uniform lo hi => .ok (drawU lo hi N g)
  | .normal mean sd => if sd < 0 then .error .invalidScale else .ok (drawZ mean sd N g)

/-- Modelled from the spec: validity of distribution parameters —
`lo ≤ hi` for Uniform and `0 ≤ sd` for Normal (§4.1's error condition is
their negation). -/
def specValidDistParams : DistKind → Prop
  | .uniform lo hi => lo ≤ hi
  | .normal _ sd => 0 ≤ sd

instance : DecidablePred specValidDistParams := fun d => by
  cases d <;> simp only [specValidDistParams] <;> infer_instance

/-- `TRUCK_OPS` dictionary: time ranges (minutes) of the truck model's
operational steps. -/
structure TruckOpsT where
  loading : ℚ × ℚ
  unloading : ℚ × ℚ
  last_mile : ℚ × ℚ

def TRUCK_OPS : TruckOpsT :=
  { loading := (15, 25), unloading := (15, 25), last_mile := (10, 20) }

/-- `MTR_OPS` dictionary: time ranges (minutes) of the rail+drone model's
operational steps. -/
structure MtrOpsT where
  first_mile : ℚ × ℚ
  wait_time : ℚ × ℚ
  transfer : ℚ × ℚ
  drone_load : ℚ × ℚ
  flight : ℚ × ℚ

def MTR_OPS : MtrOpsT :=
  { first_mile := (5, 15), wait_time := (0, 6), transfer := (8, 12),
    drone_load := (3, 5), flight := (3, 5) }

/-- Per-station transit data: fixed MTR time and a road-time range. -/
structure StationData where
  mtr_time : ℚ
  truck_range : ℚ × ℚ
deriving DecidableEq

/-- `STATIONS_DB`, in the registration (insertion) order of the Python
dict. -/
def STATIONS_DB : List (String × StationData) :=
  [("Admiralty", ⟨29, (35, 75)⟩),
   ("Exhibition Ctr", ⟨27, (35, 70)⟩),
   ("Hung Hom", ⟨22, (25, 55)⟩),
   ("Mong Kok East", ⟨18, (20, 45)⟩),
   ("Kowloon Tong", ⟨15, (20, 45)⟩),
   ("Tai Wai", ⟨11, (15, 30)⟩),
   ("Sha Tin", ⟨8, (12, 25)⟩),
   ("Fo Tan", ⟨5, (10, 20)⟩),
   ("University", ⟨3, (8, 15)⟩)]

def N_SIMULATIONS : ℕ := 10000

/-- Vectorized `+` on equal-length sample arrays (numpy element-wise sum). -/
def zipSum (a b : List ℚ) : List ℚ := List.zipWith (· + ·) a b

/-- Model A totals for one station: draws `t_load`, `t_unload`, `t_last`,
`t_road` in that order, then `total_time_truck = t_load + t_road +
t_unload + t_last`. -/
def truckTotals (d : StationData) (N : ℕ) (g : Gen) : List ℚ × Gen :=
  let s_load := drawU TRUCK_OPS.loading.1 TRUCK_OPS.loading.2 N g
  let s_unload := drawU TRUCK_OPS.unloading.1 TRUCK_OPS.unloading.2 N s_load.2
  let s_last := drawU TRUCK_OPS.last_mile.1 TRUCK_OPS.last_mile.2 N s_unload.2
  let s_road := drawU d.truck_range.1 d.truck_range.2 N s_last.2
  (zipSum (zipSum (zipSum s_load.1 s_road.1) s_unload.1) s_last.1, s_road.2)

/-- Model B totals for one station: draws `t_first`, `t_wait`, `t_transfer`,
`t_drone_load`, `t_flight` (uniform) then `t_rail` (normal, mean
`mtr_time`, scale `0.5`), and `total_time_mtr = t_first + t_wait + t_rail +
t_transfer + t_drone_load + t_flight`. -/
def mtrTotals (d : StationData) (N : ℕ) (g : Gen) : List ℚ × Gen :=
  let s_first := drawU MTR_OPS.first_mile.1 MTR_OPS.first_mile.2 N g
  let s_wait := drawU MTR_OPS.wait_time.1 MTR_OPS.wait_time.2 N s_first.2
  let s_transfer := drawU MTR_OPS.transfer.1 MTR_OPS.transfer.2 N s_wait.2
  let s_drone := drawU MTR_OPS.drone_load.1 MTR_OPS.drone_load.2 N s_transfer.2
  let s_flight := drawU MTR_OPS.flight.1 MTR_OPS.flight.2 N s_drone.2
  let s_rail := drawZ d.mtr_time (1/2) N s_flight.2
  (zipSum (zipSum (zipSum (zipSum (zipSum s_first.1 s_wait.1) s_rail.1)
      s_transfer.1) s_drone.1) s_flight.1, s_rail.2)

/-- `np.mean`. -/
def npMean (xs : List ℚ) : ℚ := xs.sum / xs.length

/-- The square of `np.std` with its default `ddof=0`:
`sum((x - mean)^2) / len` (population convention). -/
def npVariance (xs : List ℚ) : ℚ :=
  ((xs.map (fun x => (x - npMean xs) ^ 2)).sum) / xs.length

/-- Ascending sort, as `np.percentile` performs internally.  Only the sorted
result matters, not the algorithm, so we use insertion sort (ascending order
on ℚ is antisymmetric, hence the sorted permutation is unique). -/
def sortAsc (xs : List ℚ) : List ℚ := xs.insertionSort (· ≤ ·)

/-- Linear interpolation of a sorted array at fractional 0-based index `h`:
`ys[⌊h⌋] + (h - ⌊h⌋) * (ys[⌊h⌋+1] - ys[⌊h⌋])`, the out-of-range upper
neighbour defaulting to the lower one (numpy clamps; for the `h` values in
range the default is never reached with nonzero weight). -/
def npQuantilePos (ys : List ℚ) (h : ℚ) : ℚ :=
  let i : ℕ := ⌊h⌋.toNat
  let a := ys.getD i 0
  let b := ys.getD (i + 1) a
  a + (h - i) * (b - a)

/-- `np.percentile(xs, q)` with the default linear interpolation: sort
ascending, interpolate at fractional 0-based index `(len-1)*q/100`. -/
def npPercentile (xs : List ℚ) (q : ℚ) : ℚ :=
  npQuantilePos (sortAsc xs) (((xs.length : ℚ) - 1) * q / 100)

/-- One row of `results_data` / `df_results`
(`Std_Dev_sq` is the square of the recorded `Std_Dev`, see the header). -/
structure ResultRow where
  Station : String
  Mode : String
  Average_Time : ℚ
  P95_Time : ℚ
  Std_Dev_sq : ℚ
deriving DecidableEq

/-- Loop body for one station: simulate both models, record the truck row
then the MTR row, and return the advanced generator. -/
def simulateStation (name : String) (d : StationData) (N : ℕ) (g : Gen) :
    ResultRow × ResultRow × Gen :=
  let tt := truckTotals d N g
  let tm := mtrTotals d N tt.2
  ({ Station := name, Mode := "Traditional Truck",
     Average_Time := npMean tt.1,
     P95_Time := npPercentile tt.1 95,
     Std_Dev_sq := npVariance tt.1 },
   { Station := name, Mode := "MTR + Drone",
     Average_Time := npMean tm.1,
     P95_Time := npPercentile tm.1 95,
     Std_Dev_sq := npVariance tm.1 }, tm.2)

/-- The Phase 2 loop over a station list: appends each station's truck row
then MTR row, threading the shared generator in sequence. -/
def runStations : List (String × StationData) → ℕ → Gen → List ResultRow × Gen
  | [], _, g => ([], g)
  | e :: rest, N, g =>
    let step := simulateStation e.1 e.2 N g
    let tail := runStations rest N step.2.2
    (step.1 :: step.2.1 :: tail.1, tail.2)

/-- The full simulation driver: the Phase 2 loop over `STATIONS_DB`,
producing `df_results` as an ordered row list. -/
def runSimulation (N : ℕ) (g : Gen) : List ResultRow :=
  (runStations STATIONS_DB N g).1

/-- One row of `comparison_table`; `none` models a NaN / non-finite float
cell. -/
structure CompRow where
  Station : String
  truckMean : Option ℚ
  droneMean : Option ℚ
  timeSaved : Option ℚ
  improvementPct : Option ℚ
deriving DecidableEq

/-- One pivot cell: the `Average_Time` of the first row matching the given
station and mode, or `none` (pandas fills NaN) when the station has no row
for that mode.  Faithful on duplicate-free collections — pandas `pivot`
raises `ValueError` on a duplicate (Station, Mode) pair, a path modelled
by `comparisonTablePandas` below; under its `Nodup` guard the first match
here is the unique match. -/
def pivotCell (rows : List ResultRow) (s mode : String) : Option ℚ :=
  (rows.find? (fun r => r.Station == s && r.Mode == mode)).map (·.Average_Time)

/-- The pivot index: distinct stations, sorted lexicographically as pandas
`pivot` sorts its index. -/
def pivotIndex (rows : List ResultRow) : List String :=
  ((rows.map (·.Station)).dedup).insertionSort (· ≤ ·)

/-- NaN-propagating subtraction of cells. -/
def optSub : Option ℚ → Option ℚ → Option ℚ
  | some x, some y => some (x - y)
  | _, _ => none

/-- `saved / truck * 100` on cells: NaN propagates, and a zero divisor
yields float `inf`/`NaN` — a non-finite cell, modelled `none` — without
raising. -/
def optImprovement : Option ℚ → Option ℚ → Option ℚ
  | some saved, some truck => if truck = 0 then none else some (saved / truck * 100)
  | _, _ => none

/-- The cell-wise content of `comparison_table`: pivot `Average_Time` by
(Station, Mode) and derive `Time Saved (min)` and `Improvement (%)`.
This is the table the script prints in the regime where pandas produces
one at all — a duplicate-free collection in which both mode labels occur
somewhere (pivot only creates columns for labels that occur; a column
absent altogether makes the script's column access raise instead, see
`comparisonTablePandas`). -/
def comparisonTable (rows : List ResultRow) : List CompRow :=
  (pivotIndex rows).map (fun s =>
    let tm := pivotCell rows s "Traditional Truck"
    let dm := pivotCell rows s "MTR + Drone"
    let saved := optSub tm dm
    { Station := s, truckMean := tm, droneMean := dm,
      timeSaved := saved, improvementPct := optImprovement saved tm })

/-- The two errors the comparison stage can raise: pandas `pivot` rejects
a duplicate (Station, Mode) entry with `ValueError`, and the script's
column accesses `comparison_table["Traditional Truck"]` /
`comparison_table["MTR + Drone"]` raise `KeyError` when that mode label
occurs in no row, since `pivot` only creates columns for labels that
occur. -/
inductive PivotError where
  | valueErrorDuplicate
  | keyErrorColumn
deriving DecidableEq

/-- The comparison stage of the script with its error paths
(`simulation.py` lines 160–168): `pivot` first fails on duplicate
(Station, Mode) entries; the column accesses then fail if either mode
label occurs in no row; otherwise the table of `comparisonTable` is
produced (under the `Nodup` guard `pivotCell`'s first match is the unique
match, so the cell-wise computation agrees with pandas). -/
def comparisonTablePandas (rows : List ResultRow) : Except PivotError (List CompRow) :=
  if ¬ (rows.map (fun r => (r.Station, r.Mode))).Nodup then
    .error .valueErrorDuplicate
  else if ¬ ("Traditional Truck" ∈ rows.map (·.Mode) ∧
      "MTR + Drone" ∈ rows.map (·.Mode)) then
    .error .keyErrorColumn
  else
    .ok (comparisonTable rows)

/-- Modelled from the spec (§4.3, C3's wording): "sort ascending,
interpolate at rank `N·q/100` using fractional index weighting", reading
"rank" in the usual 1-based sense, so 0-based fractional index
`N·q/100 - 1`. -/
def specPercentileRank (xs : List ℚ) (q : ℚ) : ℚ :=
  npQuantilePos (sortAsc xs) ((xs.length : ℚ) * q / 100 - 1)

/-- The percentile convention the code actually implements, written in the
spec's rank language: interpolate at rank `1 + (N-1)·q/100` (1-based),
i.e. 0-based fractional index `(N-1)·q/100`. -/
def linearRankPercentile (xs : List ℚ) (q : ℚ) : ℚ :=
  npQuantilePos (sortAsc xs) ((1 + ((xs.length : ℚ) - 1) * q / 100) - 1)

/-- Modelled from the spec: the arithmetic mean. -/
def specMean (xs : List ℚ) : ℚ := xs.sum / xs.length

/-- Modelled from the spec: population variance — squared deviations from
the mean, divided by `N`. -/
def specPopVariance (xs : List ℚ) : ℚ :=
  ((xs.map (fun x => (x - specMean xs) ^ 2)).sum) / xs.length

/-- Modelled from the spec's contrast case: sample variance, divided by
`N - 1`. -/
def specSampleVariance (xs : List ℚ) : ℚ :=
  ((xs.map (fun x => (x - specMean xs) ^ 2)).sum) / ((xs.length : ℚ) - 1)

/-- The sample median: middle element of the ascending sort for odd length,
mean of the two middle elements for even length. -/
def sampleMedian (xs : List ℚ) : ℚ :=
  let ys := sortAsc xs
  if xs.length % 2 = 1 then ys.getD (xs.length / 2) 0
  else (ys.getD (xs.length / 2 - 1) 0 + ys.getD (xs.length / 2) 0) / 2

/-- The sample maximum: last element of the ascending sort. -/
def sampleMax (xs : List ℚ) : ℚ := (sortAsc xs).getD (xs.length - 1) 0

/-- The origin-independent part of one rail+drone trial: the five Uniform
steps of `MTR_OPS`, sampled at trial index `i` (stream offsets follow the
code's draw order). -/
def mtrUniformOnly (N : ℕ) (g : Gen) (i : ℕ) : ℚ :=
  uniformSample 5 15 (g.u (g.cu + i)) + uniformSample 0 6 (g.u (g.cu + N + i)) +
    uniformSample 8 12 (g.u (g.cu + 2 * N + i)) +
    uniformSample 3 5 (g.u (g.cu + 3 * N + i)) +
    uniformSample 3 5 (g.u (g.cu + 4 * N + i))

/-- A concrete generator used to instantiate universally quantified
theorems: every unit variate is `1/2`, every standard-normal variate `0`. -/
def genW : Gen := ⟨fun _ => 1/2, fun _ => 0, 0, 0⟩

/-! ## Helper lemmas -/

lemma getD_map_range (f : ℕ → ℚ) {N i : ℕ} (hi : i < N) :
    ((List.range N).map f).getD i 0 = f i := by
  rw [List.getD_eq_getElem?_getD, List.getElem?_map, List.getElem?_range hi]
  rfl

lemma zipSum_map_range (f g : ℕ → ℚ) (N : ℕ) :
    zipSum ((List.range N).map f) ((List.range N).map g)
      = (List.range N).map (fun i => f i + g i) := by
  unfold zipSum
  rw [List.zipWith_map, List.zipWith_same]

/-- The truck totals are, trial by trial, the sum of the four Uniform steps,
each step drawing its trial-`i` sample from its own block of the stream. -/
lemma truckTotals_fst (d : StationData) (N : ℕ) (g : Gen) :
    (truckTotals d N g).1 = (List.range N).map (fun i =>
      uniformSample 15 25 (g.u (g.cu + i)) +
        uniformSample d.truck_range.1 d.truck_range.2 (g.u (g.cu + 3 * N + i)) +
        uniformSample 15 25 (g.u (g.cu + N + i)) +
        uniformSample 10 20 (g.u (g.cu + 2 * N + i))) := by
  simp only [truckTotals, drawU, TRUCK_OPS, zipSum_map_range]
  congr 1
  funext i
  ring_nf

/-- The rail+drone totals are, trial by trial, the sum of the five Uniform
steps and the Normal rail step with mean `mtr_time` and scale `1/2`. -/
lemma mtrTotals_fst (d : StationData) (N : ℕ) (g : Gen) :
    (mtrTotals d N g).1 = (List.range N).map (fun i =>
      uniformSample 5 15 (g.u (g.cu + i)) +
        uniformSample 0 6 (g.u (g.cu + N + i)) +
        normalSample d.mtr_time (1/2) (g.z (g.cz + i)) +
        uniformSample 8 12 (g.u (g.cu + 2 * N + i)) +
        uniformSample 3 5 (g.u (g.cu + 3 * N + i)) +
        uniformSample 3 5 (g.u (g.cu + 4 * N + i))) := by
  simp only [mtrTotals, drawU, drawZ, MTR_OPS, zipSum_map_range]
  congr 1
  funext i
  ring_nf


lemma runStations_map_station (es : List (String × StationData)) (N : ℕ) (g : Gen) :
    ((runStations es N g).1).map (·.Station) = es.flatMap (fun e => [e.1, e.1]) := by
  induction es generalizing g with
  | nil => simp [runStations]
  | cons e rest ih =>
    simp [runStations, simulateStation, ih]

lemma runStations_map_mode (es : List (String × StationData)) (N : ℕ) (g : Gen) :
    ((runStations es N g).1).map (·.Mode)
      = es.flatMap (fun _ => ["Traditional Truck", "MTR + Drone"]) := by
  induction es generalizing g with
  | nil => simp [runStations]
  | cons e rest ih =>
    simp [runStations, simulateStation, ih]

/-! ## Claims -/

/-- C1 (counterexample): a Uniform spec with `lo = 10 > 5 = hi` does NOT
fail: the sampler succeeds and draws all requested samples (numpy performs
no bound check; the draws land in `[5, 10]`).  This refutes "if `lo > hi`
... the program fails with an InvalidDistributionParameters error before
any samples are drawn". -/
theorem c1_counterexample :
    ¬ specValidDistParams (.uniform 10 5) ∧
    sampleDist (.uniform 10 5) 3 genW
      = .ok ([15/2, 15/2, 15/2], ⟨fun _ => 1/2, fun _ => 0, 3, 0⟩) := by
  constructor
  · norm_num [specValidDistParams]
  · norm_num [sampleDist, drawU, uniformSample, genW, List.range_succ]

/-- C1 (amended): only the Normal half of the validation exists — a Normal
spec with `sd < 0` fails (numpy's `ValueError`, not a dedicated
`InvalidDistributionParameters`) before any samples are produced, while a
Uniform spec is never validated: for any `lo, hi` (including `lo > hi`) the
sampler succeeds and draws exactly `N` samples. -/
theorem c1_no_uniform_validation (m sd lo hi : ℚ) (N : ℕ) (g : Gen) (hsd : sd < 0) :
    sampleDist (.normal m sd) N g = .error .invalidScale ∧
    sampleDist (.uniform lo hi) N g = .ok (drawU lo hi N g) ∧
    (drawU lo hi N g).1.length = N := by
  refine ⟨?_, rfl, by simp [drawU]⟩
  simp [sampleDist, hsd]

theorem c1_no_uniform_validation_witness :
    sampleDist (.normal 0 (-1)) 2 genW = .error .invalidScale ∧
    sampleDist (.uniform 10 5) 2 genW = .ok (drawU 10 5 2 genW) ∧
    (drawU 10 5 2 genW).1.length = 2 :=
  c1_no_uniform_validation 0 (-1) 10 5 2 genW (by norm_num)

/-- C2: the driver is a pure function of the generator streams and the
trial count — two runs with the same seed (hence the same streams) and the
same `N` give identical result tables — and rows come out in registration
order: each station of `STATIONS_DB` contributes its truck row then its
MTR row, in `STATIONS_DB` order. -/
theorem c2_driver_deterministic_stable_order (g₁ g₂ : Gen) (N₁ N₂ : ℕ)
    (hg : g₁ = g₂) (hN : N₁ = N₂) :
    runSimulation N₁ g₁ = runSimulation N₂ g₂ ∧
    (runSimulation N₁ g₁).map (·.Station) = STATIONS_DB.flatMap (fun e => [e.1, e.1]) ∧
    (runSimulation N₁ g₁).map (·.Mode)
      = STATIONS_DB.flatMap (fun _ => ["Traditional Truck", "MTR + Drone"]) := by
  subst hg hN
  exact ⟨rfl, runStations_map_station _ _ _, runStations_map_mode _ _ _⟩

theorem c2_witness :
    runSimulation 3 genW = runSimulation 3 genW ∧
    (runSimulation 3 genW).map (·.Station) = STATIONS_DB.flatMap (fun e => [e.1, e.1]) ∧
    (runSimulation 3 genW).map (·.Mode)
      = STATIONS_DB.flatMap (fun _ => ["Traditional Truck", "MTR + Drone"]) :=
  c2_driver_deterministic_stable_order genW genW 3 3 rfl rfl

/-- C3 (counterexample): on the two-sample run `[0, 10]` the code's P95
(`np.percentile`, fractional index `(N-1)·0.95`) is `9.5`, while the
spec's "interpolate at rank `N·0.95`" gives `9`; the two disagree, so the
claimed characterisation of the reported P95 is false. -/
theorem c3_counterexample :
    npPercentile [0, 10] 95 = 19/2 ∧ specPercentileRank [0, 10] 95 = 9 ∧
    npPercentile [0, 10] 95 ≠ specPercentileRank [0, 10] 95 := by
  refine ⟨?_, ?_, ?_⟩ <;>
    norm_num [npPercentile, specPercentileRank, npQuantilePos, sortAsc,
      List.insertionSort, List.orderedInsert]

/-- C3 (amended): the reported P95 sorts ascending and linearly
interpolates between the two nearest ranks at rank `1 + (N-1)·0.95`
(equivalently fractional 0-based index `(N-1)·0.95`), not at rank
`N·0.95`. -/
theorem c3_percentile_rank (xs : List ℚ) (q : ℚ) :
    npPercentile xs q = linearRankPercentile xs q := by
  unfold npPercentile linearRankPercentile
  congr 1
  ring

/-- C4: for every origin the composer yields exactly `N` totals per model,
and the trial-`i` total is the element-wise (same index `i` in every step)
sum of the steps: 4 Uniform steps for the truck model, 5 Uniform steps
plus one Normal step with mean `mtr_time` for the rail+drone model. -/
theorem c4_trip_time_composer (d : StationData) (N : ℕ) (g : Gen) :
    ((truckTotals d N g).1.length = N ∧ ∀ i, i < N →
      (truckTotals d N g).1.getD i 0 =
        uniformSample 15 25 (g.u (g.cu + i)) +
          uniformSample d.truck_range.1 d.truck_range.2 (g.u (g.cu + 3 * N + i)) +
          uniformSample 15 25 (g.u (g.cu + N + i)) +
          uniformSample 10 20 (g.u (g.cu + 2 * N + i))) ∧
    ((mtrTotals d N g).1.length = N ∧ ∀ i, i < N →
      (mtrTotals d N g).1.getD i 0 =
        uniformSample 5 15 (g.u (g.cu + i)) +
          uniformSample 0 6 (g.u (g.cu + N + i)) +
          normalSample d.mtr_time (1/2) (g.z (g.cz + i)) +
          uniformSample 8 12 (g.u (g.cu + 2 * N + i)) +
          uniformSample 3 5 (g.u (g.cu + 3 * N + i)) +
          uniformSample 3 5 (g.u (g.cu + 4 * N + i))) := by
  refine ⟨⟨?_, fun i hi => ?_⟩, ⟨?_, fun i hi => ?_⟩⟩
  · rw [truckTotals_fst]; simp
  · rw [truckTotals_fst, getD_map_range _ hi]
  · rw [mtrTotals_fst]; simp
  · rw [mtrTotals_fst, getD_map_range _ hi]

theorem c4_witness :
    (truckTotals ⟨8, (12, 25)⟩ 2 genW).1.getD 0 0 =
      uniformSample 15 25 (genW.u (genW.cu + 0)) +
        uniformSample (12:ℚ) 25 (genW.u (genW.cu + 3 * 2 + 0)) +
        uniformSample 15 25 (genW.u (genW.cu + 2 + 0)) +
        uniformSample 10 20 (genW.u (genW.cu + 2 * 2 + 0)) :=
  (c4_trip_time_composer ⟨8, (12, 25)⟩ 2 genW).1.2 0 (by decide)

/-- C5: the recorded statistics use the arithmetic mean and the population
(divide-by-`N`) variance convention of the spec, applied to each model's
`N`-sample run; the population and sample (`N-1`) conventions genuinely
differ (e.g. on `[0, 2]`), so the code's choice is pinned down. -/
theorem c5_reducer_population_conventions :
    (∀ (name : String) (d : StationData) (N : ℕ) (g : Gen),
      ((simulateStation name d N g).1.Average_Time = specMean (truckTotals d N g).1 ∧
       (simulateStation name d N g).1.Std_Dev_sq = specPopVariance (truckTotals d N g).1) ∧
      ((simulateStation name d N g).2.1.Average_Time
          = specMean (mtrTotals d N (truckTotals d N g).2).1 ∧
       (simulateStation name d N g).2.1.Std_Dev_sq
          = specPopVariance (mtrTotals d N (truckTotals d N g).2).1)) ∧
    npVariance [0, 2] = 1 ∧ specSampleVariance [0, 2] = 2 := by
  refine ⟨fun name d N g => ⟨⟨rfl, rfl⟩, ⟨rfl, rfl⟩⟩, ?_, ?_⟩
  · norm_num [npVariance, npMean]
  · norm_num [specSampleVariance, specMean]

/-- C6: every comparison row whose two model means are present reports
`timeSaved = truck mean - rail-drone mean` and
`improvement = timeSaved / truck mean * 100` (for nonzero truck mean). -/
theorem c6_comparison_row (rows : List ResultRow) (row : CompRow)
    (hmem : row ∈ comparisonTable rows) (t m : ℚ)
    (ht : row.truckMean = some t) (hm : row.droneMean = some m) :
    row.timeSaved = some (t - m) ∧
    (t ≠ 0 → row.improvementPct = some ((t - m) / t * 100)) := by
  obtain ⟨s, hs, rfl⟩ := List.mem_map.mp hmem
  dsimp only at ht hm ⊢
  rw [ht, hm]
  refine ⟨rfl, fun h0 => ?_⟩
  simp [optSub, optImprovement, h0]

theorem c6_witness :
    (⟨"A", some 5, some 3, some 2, some 40⟩ : CompRow).timeSaved = some (5 - 3) ∧
    ((5:ℚ) ≠ 0 → (⟨"A", some 5, some 3, some 2, some 40⟩ : CompRow).improvementPct
      = some ((5 - 3) / 5 * 100)) :=
  c6_comparison_row
    [⟨"A", "Traditional Truck", 5, 0, 0⟩, ⟨"A", "MTR + Drone", 3, 0, 0⟩]
    ⟨"A", some 5, some 3, some 2, some 40⟩
    (by set_option maxHeartbeats 1000000 in
      set_option linter.unnecessarySeqFocus false in
      simp [comparisonTable, pivotIndex, pivotCell, optSub, optImprovement,
        List.insertionSort, List.orderedInsert, List.find?, List.dedup_cons_of_mem,
        List.dedup_cons_of_not_mem] <;> norm_num)
    5 3 rfl rfl

/-- C7 (counterexample): a duplicate-free collection in which both model
labels occur but station "A" lacks an MTR statistic and station "B" lacks
a truck statistic.  The comparison stage raises nothing — neither pandas
error path fires and no `MissingModelError` exists — and it produces a
table whose missing cells are silently defaulted NaN (`none`), which then
propagates into the derived columns.  This refutes "fails with a
`MissingModelError` whenever some origin lacks a statistic for either
model ... surfaced to the caller rather than silently defaulted". -/
theorem c7_counterexample_silent :
    comparisonTablePandas
      [⟨"A", "Traditional Truck", 5, 0, 0⟩, ⟨"B", "MTR + Drone", 4, 0, 0⟩]
      = .ok [⟨"A", some 5, none, none, none⟩, ⟨"B", none, some 4, none, none⟩] := by
  have hAB : ("A" : String) ≤ "B" := String.le_iff_toList_le.mpr (by decide)
  set_option maxHeartbeats 1000000 in
  simp [comparisonTablePandas, comparisonTable, pivotIndex, pivotCell, optSub,
    optImprovement, List.insertionSort, List.orderedInsert, List.find?,
    List.dedup_cons_of_mem, List.dedup_cons_of_not_mem, hAB]

/-- C7 (amended): the builder performs no missing-model check.  On any
duplicate-free collection in which both model labels occur, an origin
lacking a statistic for one model is no error: the stage succeeds and
that origin's row silently carries NaN (`none`) in `timeSaved` and
`improvementPct`.  A model label occurring in no row at all aborts with
`KeyError` at the column access — a surfaced error, but neither a
`MissingModelError` nor the result of an explicit per-origin check. -/
theorem c7_no_missing_model_check :
    (∀ (rows : List ResultRow) (s : String),
      (rows.map (fun r => (r.Station, r.Mode))).Nodup →
      "Traditional Truck" ∈ rows.map (·.Mode) →
      "MTR + Drone" ∈ rows.map (·.Mode) →
      s ∈ pivotIndex rows →
      (pivotCell rows s "Traditional Truck" = none ∨
        pivotCell rows s "MTR + Drone" = none) →
      comparisonTablePandas rows = .ok (comparisonTable rows) ∧
      ∃ row ∈ comparisonTable rows,
        row.Station = s ∧ row.timeSaved = none ∧ row.improvementPct = none) ∧
    (∀ rows : List ResultRow,
      (rows.map (fun r => (r.Station, r.Mode))).Nodup →
      ("Traditional Truck" ∉ rows.map (·.Mode) ∨
        "MTR + Drone" ∉ rows.map (·.Mode)) →
      comparisonTablePandas rows = .error .keyErrorColumn) := by
  constructor
  · intro rows s hnd htr hdr hs hmiss
    refine ⟨by simp [comparisonTablePandas, hnd, htr, hdr], ?_⟩
    refine ⟨_, List.mem_map_of_mem _ hs, rfl, ?_, ?_⟩ <;> dsimp only <;>
      rcases hmiss with h | h <;> rw [h]
    · cases pivotCell rows s "MTR + Drone" <;> rfl
    · cases pivotCell rows s "Traditional Truck" <;> rfl
    · cases pivotCell rows s "MTR + Drone" <;> rfl
    · cases pivotCell rows s "Traditional Truck" <;> rfl
  · intro rows hnd hmiss
    rcases hmiss with h | h <;> simp [comparisonTablePandas, hnd, h]

theorem c7_no_missing_model_check_witness :
    (comparisonTablePandas
        [⟨"A", "Traditional Truck", 5, 0, 0⟩, ⟨"B", "MTR + Drone", 4, 0, 0⟩]
      = .ok (comparisonTable
        [⟨"A", "Traditional Truck", 5, 0, 0⟩, ⟨"B", "MTR + Drone", 4, 0, 0⟩]) ∧
      ∃ row ∈ comparisonTable
          [⟨"A", "Traditional Truck", 5, 0, 0⟩, ⟨"B", "MTR + Drone", 4, 0, 0⟩],
        row.Station = "A" ∧ row.timeSaved = none ∧ row.improvementPct = none) ∧
    comparisonTablePandas [⟨"B", "MTR + Drone", 4, 0, 0⟩] = .error .keyErrorColumn :=
  ⟨c7_no_missing_model_check.1
      [⟨"A", "Traditional Truck", 5, 0, 0⟩, ⟨"B", "MTR + Drone", 4, 0, 0⟩] "A"
      (by decide) (by decide) (by decide)
      (by
        show ("A" : String) ∈ List.insertionSort _ _
        refine ((List.perm_insertionSort _ _).mem_iff).mpr (List.mem_dedup.mpr ?_)
        decide)
      (Or.inr (by simp [pivotCell, List.find?])),
   c7_no_missing_model_check.2 [⟨"B", "MTR + Drone", 4, 0, 0⟩] (by decide)
     (Or.inl (by decide))⟩

/-- C8 (counterexample): with a zero truck mean for station "C" the
builder signals nothing: it still produces the row, the division by zero
happening silently with a non-finite result (`none`) in the improvement
cell. -/
theorem c8_counterexample :
    comparisonTable [⟨"C", "Traditional Truck", 0, 0, 0⟩, ⟨"C", "MTR + Drone", 4, 0, 0⟩]
      = [⟨"C", some 0, some 4, some (0 - 4), none⟩] := by
  set_option maxHeartbeats 1000000 in
  simp [comparisonTable, pivotIndex, pivotCell, optSub, optImprovement,
    List.insertionSort, List.orderedInsert, List.find?, List.dedup_cons_of_mem,
    List.dedup_cons_of_not_mem]

/-- C8 (amended): for every comparison row with truck mean `0` the
improvement cell is the silently produced non-finite value (`none`); no
error is raised. -/
theorem c8_zero_truck_mean_silent (rows : List ResultRow) (row : CompRow)
    (hmem : row ∈ comparisonTable rows) (h0 : row.truckMean = some 0) :
    row.improvementPct = none := by
  obtain ⟨s, hs, rfl⟩ := List.mem_map.mp hmem
  dsimp only at h0 ⊢
  rw [h0]
  cases pivotCell rows s "MTR + Drone" <;> simp [optSub, optImprovement]

theorem c8_zero_truck_mean_silent_witness :
    (⟨"C", some 0, some 4, some (0 - 4), none⟩ : CompRow).improvementPct = none :=
  c8_zero_truck_mean_silent
    [⟨"C", "Traditional Truck", 0, 0, 0⟩, ⟨"C", "MTR + Drone", 4, 0, 0⟩]
    ⟨"C", some 0, some 4, some (0 - 4), none⟩
    (by set_option maxHeartbeats 1000000 in
      simp [comparisonTable, pivotIndex, pivotCell, optSub, optImprovement,
        List.insertionSort, List.orderedInsert, List.find?, List.dedup_cons_of_mem,
        List.dedup_cons_of_not_mem])
    rfl

/-- C10: the rail-transit Normal step is sampled with the fixed scale
`0.5`: the rail+drone totals decompose trial-by-trial into the fixed
five-Uniform part plus `mtr_time + 0.5·z_i`, and the whole rail+drone run
depends on the origin only through `mtr_time`. -/
theorem c10_rail_step (d : StationData) (N : ℕ) (g : Gen) :
    (∀ d' : StationData, d'.mtr_time = d.mtr_time → mtrTotals d' N g = mtrTotals d N g) ∧
    (∀ i, i < N → (mtrTotals d N g).1.getD i 0 =
      mtrUniformOnly N g i + normalSample d.mtr_time (1/2) (g.z (g.cz + i))) := by
  constructor
  · intro d' hd
    simp only [mtrTotals, hd]
  · intro i hi
    rw [mtrTotals_fst, getD_map_range _ hi]
    simp only [mtrUniformOnly]
    ring

theorem c10_witness :
    (mtrTotals ⟨8, (12, 25)⟩ 2 genW).1.getD 1 0 =
      mtrUniformOnly 2 genW 1 + normalSample 8 (1/2) (genW.z (genW.cz + 1)) :=
  (c10_rail_step ⟨8, (12, 25)⟩ 2 genW).2 1 (by decide)

end FYP

namespace FYP

lemma sortAsc_sorted (xs : List ℚ) : (sortAsc xs).Sorted (· ≤ ·) :=
  List.sorted_insertionSort _ _

lemma sortAsc_length (xs : List ℚ) : (sortAsc xs).length = xs.length :=
  List.length_insertionSort _ _

lemma sorted_getD_le {ys : List ℚ} (hs : ys.Sorted (· ≤ ·)) {j k : ℕ}
    (hjk : j ≤ k) (hk : k < ys.length) : ys.getD j 0 ≤ ys.getD k 0 := by
  have hj : j < ys.length := lt_of_le_of_lt hjk hk
  rw [List.getD_eq_getElem _ _ hj, List.getD_eq_getElem _ _ hk]
  have := hs.rel_get_of_le (a := ⟨j, hj⟩) (b := ⟨k, hk⟩) hjk
  simpa [List.get_eq_getElem] using this

lemma getD_succ_ge {ys : List ℚ} (hs : ys.Sorted (· ≤ ·)) (i : ℕ) :
    ys.getD i 0 ≤ ys.getD (i + 1) (ys.getD i 0) := by
  rcases lt_or_le (i + 1) ys.length with hc | hc
  · rw [List.getD_eq_getElem _ _ hc]
    have hi : i < ys.length := lt_trans (Nat.lt_succ_self i) hc
    rw [List.getD_eq_getElem _ _ hi]
    have := hs.rel_get_of_le (a := ⟨i, hi⟩) (b := ⟨i + 1, hc⟩) (Nat.le_succ i)
    simpa [List.get_eq_getElem] using this
  · rw [List.getD_eq_default _ _ hc]

lemma floor_toNat_cast {h : ℚ} (h0 : 0 ≤ h) : ((⌊h⌋.toNat : ℚ)) = (⌊h⌋ : ℚ) := by
  have h1 := Int.toNat_of_nonneg (Int.floor_nonneg.mpr h0)
  have h2 : (((⌊h⌋.toNat : ℤ) : ℚ)) = ((⌊h⌋ : ℤ) : ℚ) := by rw [h1]
  exact_mod_cast h2

lemma floor_toNat_lt_length {ys : List ℚ} {h : ℚ} (h0 : 0 ≤ h)
    (hub : h ≤ (ys.length : ℚ) - 1) : ⌊h⌋.toNat < ys.length := by
  have hfl : ((⌊h⌋.toNat : ℚ)) = (⌊h⌋ : ℚ) := floor_toNat_cast h0
  have h1 : ((⌊h⌋.toNat : ℚ)) + 1 ≤ (ys.length : ℚ) := by
    rw [hfl]; linarith [Int.floor_le h]
  exact_mod_cast h1

lemma npQuantilePos_between {ys : List ℚ} (hs : ys.Sorted (· ≤ ·)) {h : ℚ}
    (h0 : 0 ≤ h) :
    ys.getD ⌊h⌋.toNat 0 ≤ npQuantilePos ys h ∧
    npQuantilePos ys h ≤ ys.getD (⌊h⌋.toNat + 1) (ys.getD ⌊h⌋.toNat 0) := by
  have hfl : ((⌊h⌋.toNat : ℚ)) = (⌊h⌋ : ℚ) := floor_toNat_cast h0
  have hg0 : 0 ≤ h - (⌊h⌋.toNat : ℚ) := by rw [hfl]; linarith [Int.floor_le h]
  have hg1 : h - (⌊h⌋.toNat : ℚ) < 1 := by rw [hfl]; linarith [Int.lt_floor_add_one h]
  have hab := getD_succ_ge hs ⌊h⌋.toNat
  simp only [npQuantilePos]
  constructor
  · nlinarith [mul_nonneg hg0 (sub_nonneg.mpr hab)]
  · nlinarith [mul_nonneg (by linarith : (0:ℚ) ≤ 1 - (h - (⌊h⌋.toNat : ℚ)))
      (sub_nonneg.mpr hab)]

lemma npQuantilePos_mono {ys : List ℚ} (hs : ys.Sorted (· ≤ ·)) {h₁ h₂ : ℚ}
    (h0 : 0 ≤ h₁) (h12 : h₁ ≤ h₂) (hub : h₂ ≤ (ys.length : ℚ) - 1) :
    npQuantilePos ys h₁ ≤ npQuantilePos ys h₂ := by
  have h0' : 0 ≤ h₂ := le_trans h0 h12
  have hii : ⌊h₁⌋.toNat ≤ ⌊h₂⌋.toNat := Int.toNat_le_toNat (Int.floor_mono h12)
  have hi₂len : ⌊h₂⌋.toNat < ys.length := floor_toNat_lt_length h0' hub
  rcases Nat.lt_or_ge ⌊h₁⌋.toNat ⌊h₂⌋.toNat with hlt | hge
  · have hb₁ := (npQuantilePos_between hs h0).2
    have ha₂ := (npQuantilePos_between hs h0').1
    have hsucc : ⌊h₁⌋.toNat + 1 ≤ ⌊h₂⌋.toNat := Nat.succ_le_of_lt hlt
    have hin : ⌊h₁⌋.toNat + 1 < ys.length := lt_of_le_of_lt hsucc hi₂len
    have e1 : ys.getD (⌊h₁⌋.toNat + 1) (ys.getD ⌊h₁⌋.toNat 0)
        = ys.getD (⌊h₁⌋.toNat + 1) 0 := by
      rw [List.getD_eq_getElem _ _ hin, List.getD_eq_getElem _ _ hin]
    have chain : ys.getD (⌊h₁⌋.toNat + 1) 0 ≤ ys.getD ⌊h₂⌋.toNat 0 :=
      sorted_getD_le hs hsucc hi₂len
    rw [e1] at hb₁
    linarith
  · have heq : ⌊h₁⌋.toNat = ⌊h₂⌋.toNat := le_antisymm hii hge
    have hfl₁ : ((⌊h₁⌋.toNat : ℚ)) = (⌊h₁⌋ : ℚ) := floor_toNat_cast h0
    have hab := getD_succ_ge hs ⌊h₁⌋.toNat
    simp only [npQuantilePos, ← heq]
    nlinarith [mul_nonneg (sub_nonneg.mpr h12) (sub_nonneg.mpr hab)]

lemma npQuantilePos_le_last {ys : List ℚ} (hs : ys.Sorted (· ≤ ·)) {h : ℚ}
    (h0 : 0 ≤ h) (hub : h ≤ (ys.length : ℚ) - 1) :
    npQuantilePos ys h ≤ ys.getD (ys.length - 1) 0 := by
  have hv := (npQuantilePos_between hs h0).2
  have hi_len : ⌊h⌋.toNat < ys.length := floor_toNat_lt_length h0 hub
  rcases lt_or_le (⌊h⌋.toNat + 1) ys.length with hc | hc
  · have e1 : ys.getD (⌊h⌋.toNat + 1) (ys.getD ⌊h⌋.toNat 0)
        = ys.getD (⌊h⌋.toNat + 1) 0 := by
      rw [List.getD_eq_getElem _ _ hc, List.getD_eq_getElem _ _ hc]
    have hle : ⌊h⌋.toNat + 1 ≤ ys.length - 1 := by omega
    have hlast : ys.length - 1 < ys.length := by omega
    have := sorted_getD_le hs hle hlast
    rw [e1] at hv
    linarith
  · have hlen : ys.length = ⌊h⌋.toNat + 1 := le_antisymm hc hi_len
    rw [List.getD_eq_default _ _ hc] at hv
    have : ys.length - 1 = ⌊h⌋.toNat := by omega
    rw [this]
    exact hv

end FYP

namespace FYP

lemma sampleMedian_eq_p50 (xs : List ℚ) (hne : xs ≠ []) :
    sampleMedian xs = npPercentile xs 50 := by
  have hn : 1 ≤ xs.length := List.length_pos.mpr hne
  have hlen := sortAsc_length xs
  unfold sampleMedian npPercentile
  have harg : ((xs.length : ℚ) - 1) * 50 / 100 = ((xs.length : ℚ) - 1) / 2 := by ring
  rw [harg]
  rcases Nat.even_or_odd xs.length with he | ho
  · -- even length: xs.length = m + m with 1 ≤ m
    obtain ⟨m, hm⟩ := he
    have hm1 : 1 ≤ m := by omega
    have hcast : ((xs.length : ℚ) - 1) / 2 = (m : ℚ) - 1 / 2 := by
      rw [hm]; push_cast; ring
    have hfloor : ⌊((xs.length : ℚ) - 1) / 2⌋ = (m : ℤ) - 1 := by
      rw [hcast, Int.floor_eq_iff]
      constructor <;> [push_cast; push_cast] <;> linarith
    have htoNat : (⌊((xs.length : ℚ) - 1) / 2⌋).toNat = m - 1 := by
      rw [hfloor]; omega
    have hmod : ¬ xs.length % 2 = 1 := by omega
    have hdiv : xs.length / 2 = m := by omega
    have hsub : m - 1 + 1 = m := by omega
    have hmlt : m < (sortAsc xs).length := by rw [hlen]; omega
    simp only [npQuantilePos, htoNat, if_neg hmod, hdiv, hsub]
    have hb : (sortAsc xs).getD (m - 1 + 1) ((sortAsc xs).getD (m - 1) 0)
        = (sortAsc xs).getD m 0 := by
      rw [hsub, List.getD_eq_getElem _ _ hmlt, List.getD_eq_getElem _ _ hmlt]
    rw [hsub] at hb
    rw [hb]
    have hcast2 : ((m - 1 : ℕ) : ℚ) = (m : ℚ) - 1 := by
      push_cast [Nat.cast_sub hm1]; ring
    rw [hcast, hcast2]
    ring
  · -- odd length: xs.length = 2*m + 1
    obtain ⟨m, hm⟩ := ho
    have hcast : ((xs.length : ℚ) - 1) / 2 = (m : ℚ) := by
      rw [hm]; push_cast; ring
    have hfloor : ⌊((xs.length : ℚ) - 1) / 2⌋ = (m : ℤ) := by
      rw [hcast]; exact Int.floor_natCast m
    have htoNat : (⌊((xs.length : ℚ) - 1) / 2⌋).toNat = m := by
      rw [hfloor]; omega
    have hmod : xs.length % 2 = 1 := by omega
    have hdiv : xs.length / 2 = m := by omega
    simp only [npQuantilePos, htoNat, if_pos hmod, hdiv]
    rw [hcast]
    ring

/-- C9 -/
theorem c9_p95_between_median_and_max (xs : List ℚ) (hne : xs ≠ []) :
    sampleMedian xs ≤ npPercentile xs 95 ∧ npPercentile xs 95 ≤ sampleMax xs := by
  have hn : 1 ≤ xs.length := List.length_pos.mpr hne
  have hs := sortAsc_sorted xs
  have hlen := sortAsc_length xs
  have hn1 : (1 : ℚ) ≤ (xs.length : ℚ) := by exact_mod_cast hn
  have hnn : (0 : ℚ) ≤ (xs.length : ℚ) - 1 := by linarith
  constructor
  · rw [sampleMedian_eq_p50 xs hne]
    unfold npPercentile
    apply npQuantilePos_mono hs
    · exact div_nonneg (mul_nonneg hnn (by norm_num)) (by norm_num)
    · nlinarith
    · rw [hlen]; nlinarith
  · unfold npPercentile sampleMax
    have h0 : (0 : ℚ) ≤ ((xs.length : ℚ) - 1) * 95 / 100 :=
      div_nonneg (mul_nonneg hnn (by norm_num)) (by norm_num)
    have hub : ((xs.length : ℚ) - 1) * 95 / 100 ≤ ((sortAsc xs).length : ℚ) - 1 := by
      rw [hlen]; nlinarith
    have := npQuantilePos_le_last hs h0 hub
    rwa [hlen] at this

theorem c9_witness :
    sampleMedian [3, 1, 2] ≤ npPercentile [3, 1, 2] 95 ∧
    npPercentile [3, 1, 2] 95 ≤ sampleMax [3, 1, 2] :=
  c9_p95_between_median_and_max [3, 1, 2] (by simp)

end FYP
